import Mathlib

/-!
Verification development for the `mywebdriver` repository.

We shallowly embed the proxy-management subsystem
(`src/webdriver/core/proxy_manager.py`) and the rotation logic of
`src/webdriver/core/mywebdriver.py` as executable Lean definitions, and
prove (or refute) the specification's claims about them.

Modelling conventions:
- Python dict-based proxy records become the structure `ProxyRecord`;
  keys that a record may lack are `Option` fields (absent = `none`).
- Network and driver I/O are modelled by explicit outcome parameters
  (`FetchOutcome`, `CheckOutcome`): each call site of an effectful
  operation takes the operation's observable result as an argument.
- Python exceptions become the error side of `Except PyErr`.
- The filesystem used by the proxy cache is a list of `CacheFile`
  entries (directory, filename, mtime, parsed JSON content).
-/

/-- Python exceptions that matter to the embedded code paths, plus the
two exception names the specification postulates (`SourceUnavailable`,
`NoProxiesAvailable`) so that claims about them can be stated. -/
inductive PyErr where
  | unboundLocal (name : String)
  | attributeError (name : String)
  | indexError
  | typeError
  | sourceUnavailable
  | noProxiesAvailable
  deriving DecidableEq, Repr

/-- A Mullvad proxy record, as built by `fetch_proxy_list` and annotated by
`check_proxy` / `check_all_proxies_threaded`.  Optional fields model dict
keys that may be absent. -/
structure ProxyRecord where
  country : String
  city : String
  socks5 : String
  hostname : String
  proxy_url : String
  valid : Option Bool := none
  checked_at : Option String := none
  error_code : Option Int := none
  error_reason : Option String := none
  error : Option String := none
  deriving DecidableEq, Repr

/-! ### Registry-line parsing (`_parse_proxy_line`, `fetch_proxy_list`) -/

/-- Python `str.strip()` over the character list: drop leading and
trailing whitespace. -/
def pyStrip (cs : List Char) : List Char :=
  ((cs.dropWhile Char.isWhitespace).reverse.dropWhile Char.isWhitespace).reverse

/-- Python `str.replace(pat, repl)` over character lists: scan left to
right, replacing non-overlapping occurrences of the non-empty pattern.
The `fuel` argument (instantiated with the input length) only makes the
recursion structural; one input character is consumed per step. -/
def replaceAux (pat repl : List Char) : Nat → List Char → List Char
  | _, [] => []
  | 0, cs => cs
  | fuel + 1, c :: rest =>
    if pat ≠ [] ∧ pat.isPrefixOf (c :: rest) then
      repl ++ replaceAux pat repl fuel (rest.drop (pat.length - 1))
    else c :: replaceAux pat repl fuel rest

/-- Python `str.replace` on strings. -/
def pyReplace (s pat repl : String) : String :=
  String.mk (replaceAux pat.data repl.data s.data.length s.data)

/-- Python `str.startswith`. -/
def pyStartsWith (s pre : String) : Bool :=
  pre.data.isPrefixOf s.data

/-- Python `str.split("\n")` (`response.text.split("\n")`). -/
def splitLinesAux : List Char → List Char → List (List Char)
  | [], acc => [acc.reverse]
  | '\n' :: rest, acc => acc.reverse :: splitLinesAux rest []
  | c :: rest, acc => splitLinesAux rest (c :: acc)

/-- Group a character list into maximal runs of spaces and maximal runs
of non-spaces (adjacent characters stay in one run iff they agree on
being a space). -/
def splitRuns : List Char → List (List Char)
  | [] => []
  | c :: rest =>
    match splitRuns rest with
    | [] => [[c]]
    | run :: runs =>
      match run with
      | [] => [c] :: runs
      | d :: _ =>
          if (c = ' ') = (d = ' ') then (c :: run) :: runs
          else [c] :: run :: runs

/-- Merge runs into fields: a space run of length at least 2 is a field
separator, any other run (including a single space) is field content.
Together with `splitRuns` this gives the semantics of Python's
`re.split` on the pattern `" \x7b2,\x7d"`: split at each maximal run of two or
more spaces, keeping single spaces inside fields. -/
def joinFields : List (List Char) → List Char → List (List Char)
  | [], acc => [acc]
  | run :: rest, acc =>
    match run with
    | ' ' :: _ :: _ => acc :: joinFields rest []
    | _ => joinFields rest (acc ++ run)

/-- The usable fields of a registry line: strip, split on runs of two or
more spaces, and drop empty parts (`parts = [part for part in parts if part]`). -/
def usableFields (line : String) : List String :=
  ((joinFields (splitRuns (pyStrip line.data)) []).map fun cs => String.mk cs).filter
    (fun s => s ≠ "")

/-- Embedding of `MullvadProxyManager._parse_proxy_line`: returns
`(country, city, socks5_address, hostname)` when the line has at least 4
and fewer than 20 usable fields, `none` otherwise. -/
def _parse_proxy_line (line : String) :
    Option (String × String × String × String) :=
  let parts := usableFields line
  if parts.length < 20 ∧ 4 ≤ parts.length then
    match parts with
    | _flag :: country :: city :: socks5_address :: rest =>
        some (pyReplace country " " "_",
              pyReplace (pyReplace city ", " "_") " " "_",
              socks5_address,
              (socks5_address :: rest).getLast (List.cons_ne_nil _ _))
    | _ => none
  else none

/-- The record appended to `proxy_list` for one successfully parsed line
of `fetch_proxy_list`. -/
def parse_record (line : String) : Option ProxyRecord :=
  (_parse_proxy_line line).map fun r =>
    { country := r.1, city := r.2.1, socks5 := r.2.2.1, hostname := r.2.2.2,
      proxy_url := "socks5://" ++ r.2.2.1 ++ ":1080" }

/-- Header/blank-line filter of `fetch_proxy_list`: keep a line iff it is
non-blank and starts with none of the header prefixes. -/
def isDataLine (line : String) : Bool :=
  !(pyStrip line.data).isEmpty && !(pyStartsWith line "Date:")
    && !(pyStartsWith line "Total") && !(pyStartsWith line " flag")

/-- The pure parsing stage of `fetch_proxy_list`: split the body on
newlines, drop header lines, parse each remaining line, skipping lines
that `_parse_proxy_line` rejects. -/
def fetch_parse (body : String) : List ProxyRecord :=
  (((splitLinesAux body.data []).map fun cs => String.mk cs).filter
    isDataLine).filterMap parse_record

/-- Observable outcome of the HTTP GET in `fetch_proxy_list`. -/
inductive FetchOutcome where
  | netError (msg : String)
  | response (status : Nat) (body : String)
  deriving DecidableEq, Repr

/-- Embedding of `MullvadProxyManager.fetch_proxy_list`.  The whole body
is wrapped in `try/except Exception: return []`, so a network error or a
`raise_for_status` failure (status in [400, 600)) yields an empty list,
never an exception. -/
def fetch_proxy_list (o : FetchOutcome) : Except PyErr (List ProxyRecord) :=
  match o with
  | .netError _ => .ok []
  | .response status body =>
      if 400 ≤ status ∧ status < 600 then .ok []
      else .ok (fetch_parse body)

/-! ### Proxy validation (`check_proxy`, `check_all_proxies_threaded`) -/

/-- Shape of the JSON value returned by `driver.go_get_json` during a
proxy check, as far as `check_proxy` inspects it. -/
inductive PageData where
  /-- a truthy dict whose `tournament` key is truthy -/
  | dictTournament
  /-- a truthy dict with falsy/absent `tournament` but truthy `error`;
  carries `error.code` and `error.reason` -/
  | dictError (code : Option Int) (reason : Option String)
  /-- a truthy dict with neither key truthy -/
  | dictOther
  /-- a falsy value or a non-dict value -/
  | other
  deriving DecidableEq, Repr

/-- Observable outcome of driver construction plus navigation inside one
`check_proxy` call. -/
inductive NavOutcome where
  /-- exception while building options/driver (outer `except`) -/
  | driverError (msg : String)
  /-- exception during navigation (inner `except`) -/
  | navError (msg : String)
  /-- navigation returned; `go_get_json` produced this value -/
  | page (d : PageData)
  deriving DecidableEq, Repr

/-- Embedding of `MullvadProxyManager.check_proxy`.  Returns the mutated
record and the boolean result.  `now` is the value of
`datetime.datetime.now().isoformat()`; note that `checked_at` is only
assigned on the no-exception path, after the navigation returned. -/
def check_proxy (proxy : ProxyRecord) (o : NavOutcome) (now : String) :
    ProxyRecord × Bool :=
  match o with
  | .driverError msg => ({ proxy with valid := some false, error := some msg }, false)
  | .navError msg => ({ proxy with valid := some false, error := some msg }, false)
  | .page d =>
    let proxy := { proxy with checked_at := some now }
    match d with
    | .dictTournament => ({ proxy with valid := some true }, true)
    | .dictError code reason =>
        ({ proxy with error_code := code, error_reason := reason }, false)
    | .dictOther => (proxy, false)
    | .other => (proxy, false)

/-- Outcome of one submitted future in `check_all_proxies_threaded`. -/
inductive CheckOutcome where
  /-- the future ran `check_proxy` to completion with this navigation outcome -/
  | run (o : NavOutcome)
  /-- `future.result()` itself raised; handled by the `except` arm of the
  batch loop -/
  | futureError (msg : String)
  deriving DecidableEq, Repr

/-- Embedding of `MullvadProxyManager.check_all_proxies_threaded`: each
input record is checked exactly once; a future that raises is caught and
its record gets `valid := false` and `error` (the batch continues).  The
in-place list mutation is modelled by returning the updated records in
input order. -/
def check_all_proxies_threaded (proxy_list : List (ProxyRecord × CheckOutcome))
    (now : String) : List ProxyRecord :=
  proxy_list.map fun pc =>
    match pc.2 with
    | .run o => (check_proxy pc.1 o now).1
    | .futureError m => { pc.1 with valid := some false, error := some m }

/-! ### Proxy cache (`save_proxy_list`, `load_latest_proxy_list`,
`is_cache_fresh`) -/

/-- One JSON file on disk, with its parsed content. -/
structure CacheFile where
  dir : String
  name : String
  mtime : ℚ
  content : List ProxyRecord
  deriving DecidableEq, Repr

/-- `self.data_dir`: `<project_root>/data/proxies`. -/
def dataDir : String := "data/proxies"

/-- Embedding of `MullvadProxyManager.save_proxy_list`: write the list as
`{save_dir}/{YYYY_MM_DD}.json`, where `save_dir` is the custom directory
if given, else `data/proxies/raw` when `unfiltered`, else `data/proxies`;
a same-named file is silently overwritten.  `date` is today's
`%Y_%m_%d` stamp and `t` the new file's modification time. -/
def save_proxy_list (fs : List CacheFile) (proxy_list : List ProxyRecord)
    (unfiltered : Bool) (custom_dir : Option String) (date : String) (t : ℚ) :
    List CacheFile :=
  let save_dir :=
    match custom_dir with
    | some d => d
    | none => if unfiltered then dataDir ++ "/raw" else dataDir
  let name := date ++ ".json"
  fs.filter (fun f => !(f.dir = save_dir && f.name = name))
    ++ [⟨save_dir, name, t, proxy_list⟩]

/-- One step of Python's `max(files, key=mtime)`: keep the accumulator
unless the next file is strictly more recent (so the first of
equally-recent files wins, as in Python). -/
def latestAcc (acc g : CacheFile) : CacheFile :=
  if acc.mtime < g.mtime then g else acc

/-- `max(json_files, key=mtime)` over the files of `data_dir`: embedding
of `MullvadProxyManager._get_latest_proxy_file`. -/
def _get_latest_proxy_file (fs : List CacheFile) : Option CacheFile :=
  match fs.filter (fun f => f.dir = dataDir) with
  | [] => none
  | f :: rest => some (rest.foldl latestAcc f)

/-- Embedding of `MullvadProxyManager.load_latest_proxy_list` (which
re-does the glob-and-max of `_get_latest_proxy_file` inline): empty list
when no file exists, else the content of the most recent file. -/
def load_latest_proxy_list (fs : List CacheFile) : List ProxyRecord :=
  match fs.filter (fun f => f.dir = dataDir) with
  | [] => []
  | f :: rest => (rest.foldl latestAcc f).content

/-- Embedding of `MullvadProxyManager.load_proxy_list_from_file` (success
path: the file's JSON array). -/
def load_proxy_list_from_file (f : CacheFile) : List ProxyRecord :=
  f.content

/-- Embedding of `MullvadProxyManager._get_file_age_hours`:
`(now - file_mtime).total_seconds() / 3600`, in hours.  Times are in
seconds. -/
def _get_file_age_hours (now : ℚ) (f : CacheFile) : ℚ :=
  (now - f.mtime) / 3600

/-- Embedding of `MullvadProxyManager.is_cache_fresh`. -/
def is_cache_fresh (fs : List CacheFile) (now max_age_hours : ℚ) :
    Bool × Option CacheFile :=
  match _get_latest_proxy_file fs with
  | none => (false, none)
  | some f => (decide (_get_file_age_hours now f ≤ max_age_hours), some f)

/-! ### Pool orchestration (`fetch_and_process_proxies`, `get_proxy_list`) -/

/-- Embedding of `MullvadProxyManager.fetch_and_process_proxies`.
`fetched` is the candidate list produced by `fetch_proxy_list` paired
with each candidate's check outcome.  The local `valid_proxies` is bound
only in the `not skip_testing` branch; the read at
`self.save_proxy_list(valid_proxies)` sits inside `try/except` (the
`UnboundLocalError` is caught and logged there), but the read at the
final `return valid_proxies` is not. -/
def fetch_and_process_proxies (fetched : List (ProxyRecord × CheckOutcome))
    (skip_testing : Bool) (now : String) : Except PyErr (List ProxyRecord) :=
  if fetched.isEmpty then .ok []
  else
    let valid_proxies : Option (List ProxyRecord) :=
      if !skip_testing then
        some ((check_all_proxies_threaded fetched now).filter
          fun p => p.valid.getD false)
      else none
    match valid_proxies with
    | some v => .ok v
    | none => .error (.unboundLocal "valid_proxies")

/-- Embedding of `MullvadProxyManager.get_proxy_list`: serve from the
cache when it is fresh and a refresh is not forced, otherwise fetch and
process (with `skip_testing` left at its default `False`). -/
def get_proxy_list (force_refresh : Bool) (fs : List CacheFile)
    (now_ts max_cache_age_hours : ℚ)
    (fetched : List (ProxyRecord × CheckOutcome)) (now : String) :
    Except PyErr (List ProxyRecord) :=
  if !force_refresh then
    match is_cache_fresh fs now_ts max_cache_age_hours with
    | (true, some f) => .ok (load_proxy_list_from_file f)
    | _ => fetch_and_process_proxies fetched false now
  else fetch_and_process_proxies fetched false now

/-! ### Rotation (`MyWebDriver._set_proxy_rotation_counter`,
`MyWebDriver.go_get_json_rotation`) -/

/-- The `config.rotation` node: `random_type` and `interval`. -/
structure RotationConfig where
  random_type : String
  interval : List Int
  deriving DecidableEq, Repr

/-- A value held by the `set_proxy` attribute.  `pdict` is a proxy dict
(as assigned from the `proxy` constructor argument); `ndarray` is the
one-element object array that `rng.choice(self.proxy_list, size=1)`
returns in `_set_random_proxy_from_list` — an ndarray wrapping the drawn
record, not the record itself. -/
inductive SetProxyVal where
  | pdict (p : ProxyRecord)
  | ndarray (p : ProxyRecord)
  deriving DecidableEq, Repr

/-- The rotation-relevant mutable state of a `MyWebDriver`. -/
structure DriverState where
  rotation_counter : Option Int
  set_proxy : Option SetProxyVal
  deriving DecidableEq, Repr

/-- Embedding of `MyWebDriver._set_proxy_rotation_counter`: `fixed` sets
the counter to `interval[0]`; `uniform` draws `rngVal` from
`rng.integers(interval[0], interval[1], endpoint=True)`; any other
`random_type` logs a warning and leaves the counter unchanged.  Indexing
an interval that is too short raises `IndexError`. -/
def _set_proxy_rotation_counter (cfg : RotationConfig) (rngVal : Int)
    (old : Option Int) : Except PyErr (Option Int) :=
  if cfg.random_type = "fixed" then
    match cfg.interval with
    | i :: _ => .ok (some i)
    | [] => .error .indexError
  else if cfg.random_type = "uniform" then
    match cfg.interval with
    | _ :: _ :: _ => .ok (some rngVal)
    | _ => .error .indexError
  else .ok old

/-- Embedding of `MyWebDriver._set_random_proxy_from_list`.  With a
truthy `proxy_list`, `rng.choice(self.proxy_list, size=1)` returns a
one-element object ndarray wrapping the drawn record `chosen`; it is
assigned to `set_proxy`, and evaluating the debug f-string
`random_proxy.get(...)` then raises `AttributeError` (ndarray has no
`get`), after the mutation.  With a falsy list a warning is logged and
the state is unchanged. -/
def _set_random_proxy_from_list (proxy_list : Option (List ProxyRecord))
    (chosen : ProxyRecord) (st : DriverState) :
    DriverState × Except PyErr Unit :=
  match proxy_list with
  | some (_ :: _) =>
      ({ st with set_proxy := some (.ndarray chosen) },
       .error (.attributeError "get"))
  | _ => (st, .ok ())

/-- Embedding of one `MyWebDriver.go_get_json_rotation` call, up to the
final page fetch: when `rotation_counter <= 0`, reset the counter, then
run `_set_random_proxy_from_list` (which, for a non-empty pool, mutates
`set_proxy` to the drawn ndarray and raises before the driver is torn
down), then `driver.close()` + `_init_from_chromeOptionsBuilder()`
(their combined outcome is the `rebuild` parameter); otherwise decrement
and keep the current driver.  Returns the state after the call and
either the raised exception or a flag telling whether the driver was
rebuilt before the fetch.  Comparing a `None` counter raises `TypeError`
in Python 3. -/
def go_get_json_rotation_step (cfg : RotationConfig) (rngVal : Int)
    (proxy_list : Option (List ProxyRecord)) (chosen : ProxyRecord)
    (rebuild : Except PyErr Unit) (st : DriverState) :
    DriverState × Except PyErr Bool :=
  match st.rotation_counter with
  | none => (st, .error .typeError)
  | some c =>
    if c ≤ 0 then
      match _set_proxy_rotation_counter cfg rngVal (some c) with
      | .error e => (st, .error e)
      | .ok newCounter =>
        match _set_random_proxy_from_list proxy_list chosen
            { st with rotation_counter := newCounter } with
        | (st2, .error e) => (st2, .error e)
        | (st2, .ok _) =>
          match rebuild with
          | .error e => (st2, .error e)
          | .ok _ => (st2, .ok true)
    else
      ({ st with rotation_counter := some (c - 1) }, .ok false)

/-- `n` consecutive `go_get_json_rotation` calls; returns the final state
and either the first raised exception or the per-call rebuild flags in
call order. -/
def runRotationSteps (cfg : RotationConfig) (rngVal : Int)
    (proxy_list : Option (List ProxyRecord)) (chosen : ProxyRecord)
    (rebuild : Except PyErr Unit) : Nat → DriverState →
    DriverState × Except PyErr (List Bool)
  | 0, st => (st, .ok [])
  | n + 1, st =>
    match go_get_json_rotation_step cfg rngVal proxy_list chosen rebuild st with
    | (st1, .error e) => (st1, .error e)
    | (st1, .ok b) =>
      match runRotationSteps cfg rngVal proxy_list chosen rebuild n st1 with
      | (st2, .error e) => (st2, .error e)
      | (st2, .ok bs) => (st2, .ok (b :: bs))

/-! ### `MyWebDriver.__init__` attribute flow -/

/-- `setattr`: record an instance-attribute assignment. -/
def setattrName (a : List String) (n : String) : List String := n :: a

/-- Embedding of `MyWebDriver.__init__` up to its first attribute read of
`self.proxy`: the assignments of lines 54-65 of
`src/webdriver/core/mywebdriver.py`, in source order, then the read in
`if self.proxy.enabled:` (line 68).  Reading an attribute that was never
assigned raises `AttributeError`; no earlier statement can raise.  The
constructor arguments are listed to show the failure is independent of
them. -/
def myWebDriverInit (_config : Option RotationConfig) (_proxy : Option ProxyRecord)
    (_proxy_list : Option (List ProxyRecord)) (_session_id : Option String) :
    Except PyErr (List String) :=
  let a : List String := []
  let a := setattrName a "config"
  let a := setattrName a "options"
  let a := setattrName a "session_id"
  let a := setattrName a "set_proxy"
  let a := setattrName a "proxy_list"
  let a := setattrName a "rng"
  let a := setattrName a "get_page"
  let a := setattrName a "rotation_counter"
  if "proxy" ∈ a then .ok a else .error (.attributeError "proxy")

/-! ### Concrete sample data used by witnesses and counterexamples -/

/-- A plain parsed proxy record (no validation annotations yet). -/
def sampleRecord (host : String) : ProxyRecord :=
  { country := "Austria", city := "Vienna", socks5 := "10.124.2.35",
    hostname := host, proxy_url := "socks5://10.124.2.35:1080" }

/-- A cached snapshot file in the data directory. -/
def sampleFile : CacheFile :=
  ⟨dataDir, "2025_10_11.json", 1000, [sampleRecord "at-vie-wg-001"]⟩

/-- The `fixed(3)` rotation policy configuration. -/
def fixed3 : RotationConfig := ⟨"fixed", [3]⟩

/-- A realistic registry data line (12 columns). -/
def atLine : String :=
  " 🇦🇹    Austria         Vienna              10.124.2.35   146.70.116.98    2001:ac8:29:84::a01f                  10     3543      ❌     M247           ✔️      at-vie-wg-001"

/-- A line with exactly 20 usable fields. -/
def line20 : String :=
  "f1  f2  f3  f4  f5  f6  f7  f8  f9  f10  f11  f12  f13  f14  f15  f16  f17  f18  f19  f20"

/-- A line with exactly 21 usable fields. -/
def line21 : String :=
  "g1  g2  g3  g4  g5  g6  g7  g8  g9  g10  g11  g12  g13  g14  g15  g16  g17  g18  g19  g20  g21"

/-! ## Theorems -/

theorem usableFields_example : usableFields "  a b  c   " = ["a b", "c"] := by decide

/-- C9: for every combination of constructor arguments, `MyWebDriver.__init__`
raises `AttributeError` at `if self.proxy.enabled:` before completing,
because no path assigns a `proxy` attribute. -/
theorem myWebDriverInit_always_raises (config : Option RotationConfig)
    (proxy : Option ProxyRecord) (proxy_list : Option (List ProxyRecord))
    (session_id : Option String) :
    myWebDriverInit config proxy proxy_list session_id =
      .error (.attributeError "proxy") := rfl

/-- C10: `fetch_and_process_proxies` with `skip_testing = true` and a
non-empty fetched list fails with an unbound-local error at its final
`return valid_proxies`, because `valid_proxies` is only assigned in the
`not skip_testing` branch (the earlier read inside the save `try` block
is caught there). -/
theorem fetch_and_process_skip_testing_unbound
    (fetched : List (ProxyRecord × CheckOutcome)) (now : String)
    (h : fetched ≠ []) :
    fetch_and_process_proxies fetched true now =
      .error (.unboundLocal "valid_proxies") := by
  simp [fetch_and_process_proxies, h]

/-- Witness for C10 at a concrete one-element fetched list. -/
theorem fetch_and_process_skip_testing_unbound_witness :
    fetch_and_process_proxies
      [(sampleRecord "at-vie-wg-001", .run (.page .dictTournament))] true "t" =
      .error (.unboundLocal "valid_proxies") :=
  fetch_and_process_skip_testing_unbound _ _ (List.cons_ne_nil _ _)

/-- C8 (code bug): the counter logic matches the claim — a fetch with a
positive counter decrements it and proceeds without rebuilding — but at
counter `<= 0` the code, after resetting the counter, raises
`AttributeError` inside `_set_random_proxy_from_list` for every
non-empty pool (`rng.choice(..., size=1)` yields a one-element ndarray
whose `.get` call fails), before the driver is torn down or rebuilt and
before the fetch; so from counter 3 the first three fetches decrement
(3, 2, 1, 0) and the 4th call fails with `AttributeError` instead of
rebuilding, leaving the counter reset to 3 and `set_proxy` holding the
ndarray. -/
theorem rotation_fixed3_behavior :
    (∀ (cfg : RotationConfig) (rngVal : Int) (pl : Option (List ProxyRecord))
       (chosen : ProxyRecord) (rb : Except PyErr Unit) (st : DriverState)
       (c : Int), st.rotation_counter = some c → 0 < c →
       go_get_json_rotation_step cfg rngVal pl chosen rb st =
         ({ st with rotation_counter := some (c - 1) }, .ok false)) ∧
    (∀ (rngVal : Int) (pool : List ProxyRecord) (chosen : ProxyRecord)
       (rb : Except PyErr Unit) (st : DriverState) (c : Int),
       st.rotation_counter = some c → c ≤ 0 → pool ≠ [] →
       go_get_json_rotation_step fixed3 rngVal (some pool) chosen rb st =
         (⟨some 3, some (.ndarray chosen)⟩, .error (.attributeError "get"))) ∧
    (∀ (rngVal : Int) (pool : List ProxyRecord) (chosen : ProxyRecord)
       (rb : Except PyErr Unit) (p : Option SetProxyVal), pool ≠ [] →
       runRotationSteps fixed3 rngVal (some pool) chosen rb 4 ⟨some 3, p⟩ =
         (⟨some 3, some (.ndarray chosen)⟩, .error (.attributeError "get"))) := by
  refine ⟨?_, ?_, ?_⟩
  · intro cfg rngVal pl chosen rb st c hc hpos
    simp [go_get_json_rotation_step, hc, not_le.mpr hpos]
  · intro rngVal pool chosen rb st c hc hle hne
    obtain _ | ⟨q, qs⟩ := pool
    · exact absurd rfl hne
    · simp [go_get_json_rotation_step, hc, hle, _set_proxy_rotation_counter,
        _set_random_proxy_from_list, fixed3]
  · intro rngVal pool chosen rb p hne
    obtain _ | ⟨q, qs⟩ := pool
    · exact absurd rfl hne
    · rfl

/-- Witness for C8: a decrementing call at counter 2, and the failing
4-call trace from counter 3 over a one-element pool. -/
theorem rotation_fixed3_behavior_witness :
    go_get_json_rotation_step fixed3 5 (some [sampleRecord "at-vie-wg-001"])
        (sampleRecord "at-vie-wg-001") (.ok ()) ⟨some 2, none⟩ =
      (⟨some 1, none⟩, .ok false) ∧
    runRotationSteps fixed3 5 (some [sampleRecord "at-vie-wg-001"])
        (sampleRecord "at-vie-wg-001") (.ok ()) 4 ⟨some 3, none⟩ =
      (⟨some 3, some (.ndarray (sampleRecord "at-vie-wg-001"))⟩,
       .error (.attributeError "get")) :=
  ⟨rotation_fixed3_behavior.1 fixed3 5 (some [sampleRecord "at-vie-wg-001"])
      (sampleRecord "at-vie-wg-001") (.ok ()) ⟨some 2, none⟩ 2 rfl (by decide),
   rotation_fixed3_behavior.2.2 5 [sampleRecord "at-vie-wg-001"]
      (sampleRecord "at-vie-wg-001") (.ok ()) none (List.cons_ne_nil _ _)⟩

/-- C3 counterexample: on a network error (and on a 503 status)
`fetch_proxy_list` returns an empty list successfully; it does not fail
with `SourceUnavailable`. -/
theorem fetch_proxy_list_no_raise_cex :
    fetch_proxy_list (.netError "connection refused") = .ok [] ∧
    fetch_proxy_list (.response 503 "") = .ok [] ∧
    fetch_proxy_list (.netError "connection refused") ≠
      .error .sourceUnavailable := by
  refine ⟨rfl, rfl, by simp [fetch_proxy_list]⟩

/-- C3 amended: `fetch_proxy_list` never fails; it returns an empty
sequence when the HTTP request errors or returns status 400-599, and the
parsed records (empty when the body parses to zero records) otherwise. -/
theorem fetch_proxy_list_spec :
    (∀ m, fetch_proxy_list (.netError m) = .ok []) ∧
    (∀ s b, 400 ≤ s → s < 600 → fetch_proxy_list (.response s b) = .ok []) ∧
    (∀ s b, ¬(400 ≤ s ∧ s < 600) →
      fetch_proxy_list (.response s b) = .ok (fetch_parse b)) ∧
    (∀ o e, fetch_proxy_list o ≠ .error e) := by
  refine ⟨fun m => rfl, ?_, ?_, ?_⟩
  · intro s b h1 h2
    simp [fetch_proxy_list, h1, h2]
  · intro s b h
    simp [fetch_proxy_list, h]
  · intro o e
    cases o with
    | netError m => simp [fetch_proxy_list]
    | response s b =>
      simp only [fetch_proxy_list]
      by_cases h : 400 ≤ s ∧ s < 600 <;> simp [h]

/-- Witness for C3 amended on a 404 response and a success response. -/
theorem fetch_proxy_list_spec_witness :
    fetch_proxy_list (.response 404 "x") = .ok [] ∧
    fetch_proxy_list (.response 200 "") = .ok (fetch_parse "") :=
  ⟨fetch_proxy_list_spec.2.1 404 "x" (by decide) (by decide),
   fetch_proxy_list_spec.2.2.1 200 "" (by decide)⟩

/-- C7: `is_cache_fresh` pairs its flag with the most-recently-modified
cache file, reports fresh exactly when `(now - mtime) / 3600` is at most
`max_age_hours`, and returns `(false, none)` when no cache file exists. -/
theorem is_cache_fresh_spec (fs : List CacheFile) (now maxAge : ℚ) :
    ((is_cache_fresh fs now maxAge).1 = true ↔
      ∃ f, _get_latest_proxy_file fs = some f ∧
        _get_file_age_hours now f ≤ maxAge) ∧
    ((is_cache_fresh fs now maxAge).2 = _get_latest_proxy_file fs) ∧
    (_get_latest_proxy_file fs = none →
      is_cache_fresh fs now maxAge = (false, none)) := by
  refine ⟨?_, ?_, ?_⟩
  · unfold is_cache_fresh
    cases h : _get_latest_proxy_file fs with
    | none => simp
    | some f => simp [decide_eq_true_eq]
  · unfold is_cache_fresh
    cases h : _get_latest_proxy_file fs <;> simp
  · intro h
    unfold is_cache_fresh
    rw [h]

/-- Witness for C7: a one-hour-old file is fresh within 24 hours, and the
empty directory is reported `(false, none)`. -/
theorem is_cache_fresh_spec_witness :
    (is_cache_fresh [sampleFile] 4600 24).1 = true ∧
    is_cache_fresh [] 4600 24 = (false, none) :=
  ⟨(is_cache_fresh_spec [sampleFile] 4600 24).1.mpr
      ⟨sampleFile, rfl, by norm_num [_get_file_age_hours, sampleFile]⟩,
   (is_cache_fresh_spec [] 4600 24).2.2 rfl⟩

/-- C1 counterexample: a batch of one candidate whose check raises a
navigation exception leaves that record with `checked_at = none` after
`check_all_proxies_threaded`; so not every record ends with a non-none
`checked_at`. -/
theorem check_all_checked_at_cex :
    ((check_all_proxies_threaded
        [(sampleRecord "al-tia-wg-001", .run (.navError "net::ERR_TIMED_OUT"))]
        "2025-10-12T10:00:00").all fun r => r.checked_at.isSome) = false := by
  decide

/-- C1 amended: `check_all_proxies_threaded` yields exactly N records;
a record's `checked_at` is set to the check time exactly when its check
reached a page response without raising, and is left unchanged (so still
none for an untested candidate) on every exception outcome; `check_proxy`
itself sets `checked_at` only on the no-exception outcomes, on which it
also sets `valid := true` exactly for a `tournament` response. -/
theorem check_all_checked_at_spec :
    (∀ p d now, ((check_proxy p (.page d) now).1).checked_at = some now) ∧
    (∀ p now, ((check_proxy p (.page .dictTournament) now).1).valid = some true) ∧
    (∀ p m now, ((check_proxy p (.navError m) now).1).checked_at = p.checked_at ∧
       ((check_proxy p (.navError m) now).1).valid = some false) ∧
    (∀ p m now, ((check_proxy p (.driverError m) now).1).checked_at = p.checked_at ∧
       ((check_proxy p (.driverError m) now).1).valid = some false) ∧
    (∀ ps now, (check_all_proxies_threaded ps now).length = ps.length) ∧
    (∀ ps (now : String) (i : Nat) (h : i < ps.length)
       (h2 : i < (check_all_proxies_threaded ps now).length),
       ((check_all_proxies_threaded ps now).get ⟨i, h2⟩).checked_at =
         match (ps.get ⟨i, h⟩).2 with
         | .run (.page _) => some now
         | .run (.navError _) => (ps.get ⟨i, h⟩).1.checked_at
         | .run (.driverError _) => (ps.get ⟨i, h⟩).1.checked_at
         | .futureError _ => (ps.get ⟨i, h⟩).1.checked_at) := by
  refine ⟨?_, ?_, ?_, ?_, ?_, ?_⟩
  · intro p d now
    cases d <;> rfl
  · intro p now
    rfl
  · intro p m now
    exact ⟨rfl, rfl⟩
  · intro p m now
    exact ⟨rfl, rfl⟩
  · intro ps now
    simp [check_all_proxies_threaded]
  · intro ps now i h h2
    simp only [check_all_proxies_threaded, List.get_eq_getElem, List.getElem_map]
    cases h3 : (ps.get ⟨i, h⟩).2 with
    | run o =>
      cases o with
      | driverError m => simp [List.get_eq_getElem] at h3; simp [h3, check_proxy]
      | navError m => simp [List.get_eq_getElem] at h3; simp [h3, check_proxy]
      | page d =>
        simp [List.get_eq_getElem] at h3
        cases d <;> simp [h3, check_proxy]
    | futureError m => simp [List.get_eq_getElem] at h3; simp [h3]

/-- Witness for C1 amended: in a concrete two-element batch, the record
whose check returned a page gets `checked_at`, the one whose check raised
does not. -/
theorem check_all_checked_at_spec_witness :
    ((check_all_proxies_threaded
        [(sampleRecord "at-vie-wg-001", .run (.page .dictTournament)),
         (sampleRecord "at-vie-wg-002", .run (.driverError "chrome failed"))]
        "2025-10-12T10:00:00").get ⟨0, by decide⟩).checked_at =
      some "2025-10-12T10:00:00" ∧
    ((check_all_proxies_threaded
        [(sampleRecord "at-vie-wg-001", .run (.page .dictTournament)),
         (sampleRecord "at-vie-wg-002", .run (.driverError "chrome failed"))]
        "2025-10-12T10:00:00").get ⟨1, by decide⟩).checked_at = none := by
  constructor
  · have h := check_all_checked_at_spec.2.2.2.2.2
      [(sampleRecord "at-vie-wg-001", .run (.page .dictTournament)),
       (sampleRecord "at-vie-wg-002", .run (.driverError "chrome failed"))]
      "2025-10-12T10:00:00" 0 (by decide) (by decide)
    exact h.trans (by decide)
  · have h := check_all_checked_at_spec.2.2.2.2.2
      [(sampleRecord "at-vie-wg-001", .run (.page .dictTournament)),
       (sampleRecord "at-vie-wg-002", .run (.driverError "chrome failed"))]
      "2025-10-12T10:00:00" 1 (by decide) (by decide)
    exact h.trans (by decide)

/-- C2 counterexample: `get_proxy_list` with `force_refresh = true` and a
validator run that marks the single candidate invalid returns the empty
list successfully instead of failing (no `NoProxiesAvailable` is ever
raised by the code). -/
theorem get_proxy_list_no_raise_cex :
    get_proxy_list true [] 0 24
        [(sampleRecord "al-tia-wg-002", .run (.navError "tunnel down"))] "t" =
      .ok [] ∧
    get_proxy_list true [] 0 24
        [(sampleRecord "al-tia-wg-002", .run (.navError "tunnel down"))] "t" ≠
      .error .noProxiesAvailable := by
  constructor
  · rfl
  · intro h
    simp [get_proxy_list, fetch_and_process_proxies,
      check_all_proxies_threaded, check_proxy] at h

/-- C2 amended: every `get_proxy_list` invocation that takes the refresh
path (forced, or cache not fresh) and ends with zero records marked valid
returns the empty sequence successfully; the code has no
`NoProxiesAvailable` failure. -/
theorem get_proxy_list_refresh_zero_valid (force_refresh : Bool)
    (fs : List CacheFile) (now_ts maxAge : ℚ)
    (fetched : List (ProxyRecord × CheckOutcome)) (now : String)
    (hpath : force_refresh = true ∨ (is_cache_fresh fs now_ts maxAge).1 = false)
    (hvalid : ∀ p ∈ check_all_proxies_threaded fetched now, p.valid.getD false = false) :
    get_proxy_list force_refresh fs now_ts maxAge fetched now = .ok [] := by
  have hfp : fetch_and_process_proxies fetched false now = .ok [] := by
    unfold fetch_and_process_proxies
    by_cases he : fetched.isEmpty
    · simp [he]
    · simp only [he, Bool.not_false, if_false, Bool.false_eq_true, ite_true]
      have : (check_all_proxies_threaded fetched now).filter
          (fun p => p.valid.getD false) = [] := by
        rw [List.filter_eq_nil_iff]
        intro p hp
        simp [hvalid p hp]
      simp [this]
  unfold get_proxy_list
  rcases hpath with h | h
  · simp [h, hfp]
  · by_cases hf : force_refresh
    · simp [hf, hfp]
    · simp only [hf, Bool.not_false, if_true]
      rcases h2 : is_cache_fresh fs now_ts maxAge with ⟨b, of⟩
      rw [h2] at h
      simp at h
      subst h
      cases of <;> simp [hfp]

/-- Witness for C2 amended: the stale-cache path with one invalid
candidate. -/
theorem get_proxy_list_refresh_zero_valid_witness :
    get_proxy_list false [] 0 24
        [(sampleRecord "al-tia-wg-003", .run (.driverError "boom"))] "t" =
      .ok [] :=
  get_proxy_list_refresh_zero_valid false [] 0 24
    [(sampleRecord "al-tia-wg-003", .run (.driverError "boom"))] "t"
    (Or.inr rfl) (by decide)

/-- Folding `latestAcc` over files that are all strictly older than `new`
ends at `new`. -/
theorem foldl_latestAcc_append (l : List CacheFile) (a new : CacheFile)
    (ha : a.mtime < new.mtime) (hl : ∀ f ∈ l, f.mtime < new.mtime) :
    (l ++ [new]).foldl latestAcc a = new := by
  induction l generalizing a with
  | nil => simp [latestAcc, ha]
  | cons b l ih =>
    simp only [List.cons_append, List.foldl_cons]
    apply ih
    · unfold latestAcc
      by_cases h : a.mtime < b.mtime
      · simp only [h, if_true]
        exact hl b (List.mem_cons_self b l)
      · simpa [h]
    · intro f hf
      exact hl f (List.mem_cons_of_mem _ hf)

/-- C6: saving a non-empty record list to the proxy data directory and
then loading the latest snapshot returns exactly the saved records,
provided the save is the most recent write (its mtime exceeds every
pre-existing file's). -/
theorem save_load_round_trip (fs : List CacheFile) (records : List ProxyRecord)
    (date : String) (t : ℚ) (_hne : records ≠ [])
    (hfresh : ∀ f ∈ fs, f.mtime < t) :
    load_latest_proxy_list (save_proxy_list fs records false none date t) =
      records := by
  unfold save_proxy_list load_latest_proxy_list
  simp only [Bool.false_eq_true, if_false, List.filter_append]
  have hdir : (List.filter (fun f => decide (f.dir = dataDir))
      [(⟨dataDir, date ++ ".json", t, records⟩ : CacheFile)] =
      [(⟨dataDir, date ++ ".json", t, records⟩ : CacheFile)]) := by
    simp
  rw [hdir]
  set l := List.filter (fun f => decide (f.dir = dataDir))
    (List.filter (fun f => !(f.dir = dataDir && f.name = date ++ ".json")) fs) with hl
  have hlt : ∀ f ∈ l, f.mtime < t := by
    intro f hf
    apply hfresh
    rw [hl] at hf
    exact List.mem_of_mem_filter (List.mem_of_mem_filter hf)
  cases hcase : l with
  | nil => simp
  | cons f rest =>
    simp only [List.cons_append]
    have hr := foldl_latestAcc_append rest f ⟨dataDir, date ++ ".json", t, records⟩
      (hlt f (by rw [hcase]; exact List.mem_cons_self f rest))
      (fun g hg => hlt g (by rw [hcase]; exact List.mem_cons_of_mem _ hg))
    rw [hr]

/-- Witness for C6: one stale file in the cache, a two-record save. -/
theorem save_load_round_trip_witness :
    load_latest_proxy_list
      (save_proxy_list [sampleFile]
        [sampleRecord "at-vie-wg-001", sampleRecord "at-vie-wg-002"]
        false none "2025_10_12" 2000) =
      [sampleRecord "at-vie-wg-001", sampleRecord "at-vie-wg-002"] :=
  save_load_round_trip [sampleFile]
    [sampleRecord "at-vie-wg-001", sampleRecord "at-vie-wg-002"]
    "2025_10_12" 2000 (List.cons_ne_nil _ _)
    (by intro f hf; simp at hf; rw [hf]; norm_num [sampleFile])

/-- A list of length at least 4 starts with four elements. -/
theorem exists_four_cons {α : Type} (l : List α) (h : 4 ≤ l.length) :
    ∃ a b c d rest, l = a :: b :: c :: d :: rest := by
  obtain _ | ⟨a, l⟩ := l
  · simp at h
  obtain _ | ⟨b, l⟩ := l
  · simp at h
  obtain _ | ⟨c, l⟩ := l
  · simp at h
  obtain _ | ⟨d, l⟩ := l
  · simp at h
  exact ⟨a, b, c, d, l, rfl⟩

/-- C4 counterexample: a data line with 20 usable fields (at least 4) is
skipped by the parser, so no record with the claimed field assignment is
produced for it. -/
theorem parse_record_fields_cex :
    (usableFields line20).length = 20 ∧ parse_record line20 = none := by
  decide

/-- C4 amended: for every registry data line with at least 4 and fewer
than 20 usable fields, the produced record takes the second field as
country (spaces to underscores), the third as city (comma-space and
space to underscores), the fourth as relay address, the last field as
hostname, discards the first, and its `proxy_url` is exactly
`socks5://` ++ relay address ++ `:1080`. -/
theorem parse_record_fields (line flag country city socks5_address : String)
    (rest : List String)
    (hfields : usableFields line = flag :: country :: city :: socks5_address :: rest)
    (hlen : rest.length < 16) :
    parse_record line = some
      { country := pyReplace country " " "_",
        city := pyReplace (pyReplace city ", " "_") " " "_",
        socks5 := socks5_address,
        hostname := (socks5_address :: rest).getLast (List.cons_ne_nil _ _),
        proxy_url := "socks5://" ++ socks5_address ++ ":1080" } := by
  have hcond : (flag :: country :: city :: socks5_address :: rest).length < 20 ∧
      4 ≤ (flag :: country :: city :: socks5_address :: rest).length := by
    simp only [List.length_cons]
    omega
  unfold parse_record _parse_proxy_line
  rw [hfields, if_pos hcond]
  rfl

set_option maxRecDepth 40000 in
/-- Witness for C4 amended: the realistic Austria registry line. -/
theorem parse_record_fields_witness :
    parse_record atLine = some
      { country := "Austria", city := "Vienna", socks5 := "10.124.2.35",
        hostname := "at-vie-wg-001",
        proxy_url := "socks5://10.124.2.35:1080" } := by
  have h := parse_record_fields atLine "🇦🇹" "Austria" "Vienna" "10.124.2.35"
    ["146.70.116.98", "2001:ac8:29:84::a01f", "10", "3543", "❌", "M247",
     "✔️", "at-vie-wg-001"] (by decide) (by decide)
  exact h.trans (by decide)

/-- C5 counterexample: a data line with 21 usable fields (at least 4
after discarding empties) is nevertheless skipped, so skipping is not
equivalent to having fewer than 4 usable fields. -/
theorem parse_skip_iff_cex :
    4 ≤ (usableFields line21).length ∧ parse_record line21 = none := by
  decide

/-- C5 amended: a line is skipped (yields no record) iff it has fewer
than 4 or at least 20 usable fields after splitting and discarding empty
fields; each kept line contributes exactly one record, so the output
length is the number of data lines minus the number of skipped lines. -/
theorem parse_skip_iff :
    (∀ line, parse_record line = none ↔
      ((usableFields line).length < 4 ∨ 20 ≤ (usableFields line).length)) ∧
    (∀ lines : List String,
      (lines.filterMap parse_record).length =
        lines.length - (lines.countP fun l => (parse_record l).isNone)) := by
  constructor
  · intro line
    constructor
    · intro hnone
      by_contra hcon
      push_neg at hcon
      obtain ⟨h4, h20⟩ : 4 ≤ (usableFields line).length ∧
          (usableFields line).length < 20 := by omega
      obtain ⟨a, b, c, d, rest, hm⟩ := exists_four_cons _ h4
      unfold parse_record _parse_proxy_line at hnone
      rw [hm] at hnone
      rw [if_pos] at hnone
      · simp at hnone
      · rw [hm] at h4 h20
        exact ⟨h20, h4⟩
    · intro hlen
      unfold parse_record _parse_proxy_line
      rw [if_neg]
      · rfl
      · omega
  · intro lines
    induction lines with
    | nil => rfl
    | cons l ls ih =>
      have hle := List.countP_le_length
        (p := fun l => (parse_record l).isNone) (l := ls)
      cases h : parse_record l with
      | none =>
        have hc : List.countP (fun l => (parse_record l).isNone) (l :: ls) =
            List.countP (fun l => (parse_record l).isNone) ls + 1 := by
          simp [List.countP_cons, h]
        have hf : List.filterMap parse_record (l :: ls) =
            List.filterMap parse_record ls := by
          simp [List.filterMap_cons, h]
        rw [hf, List.length_cons, hc, ih]
        omega
      | some r =>
        have hc : List.countP (fun l => (parse_record l).isNone) (l :: ls) =
            List.countP (fun l => (parse_record l).isNone) ls := by
          simp [List.countP_cons, h]
        have hf : List.filterMap parse_record (l :: ls) =
            r :: List.filterMap parse_record ls := by
          simp [List.filterMap_cons, h]
        rw [hf, List.length_cons, List.length_cons, hc, ih]
        omega

/-- Witness for C5 amended: a two-field line is skipped. -/
theorem parse_skip_iff_witness :
    parse_record "🇦🇱  Albania" = none :=
  (parse_skip_iff.1 "🇦🇱  Albania").mpr (Or.inl (by decide))
